import Mathlib

/-!
Verification of the derived-state hooks in `src/hooks/useDerivedState.ts`.

The source exports two pure functions:
- `useDerivedState(currentState, setState, getter, updater)` returns the pair
  `[getter(currentState), newValue => setState(o => updater(o, newValue))]`,
  the setter being wrapped in React's `useCallback`;
- `useDerivedStateField(currentState, setState, field)` delegates to
  `useDerivedState` with `getter = state => state[field]` and
  `updater = (state, newValue) => ({ ...state, [field]: newValue })`.

Embedding notes.
- The return type of the parent setter `setState` is `void` in TypeScript; here
  it is an abstract type `R`, so that an instrumented setter (`traceSetState`,
  whose result is the list of transforms it was handed) can observe how the
  derived setter invokes it.  Instantiating `R := Unit` recovers the source
  signature.
- Plain objects are modelled as total maps `K → V` from field keys to values;
  the computed-key spread `{ ...state, [field]: newValue }` becomes a
  pointwise override of that map.
- Exceptional behaviour (a throwing getter or updater, field access on a
  null/undefined state) is modelled by an `Except String`-valued variant of the
  same code, `useDerivedStateE`, in which the fallible steps of the source are
  lifted step by step.
-/

/-- React's `useCallback(callback, deps)`: returns `callback`.  Memoization on
`deps` only affects the referential identity of the returned function value (a
performance concern for the host framework), never its behaviour, so the
embedding is the identity on the callback. -/
def useCallback {A : Type _} {D : Type _} (callback : A) (_deps : D) : A :=
  callback

/-- `useDerivedState` from `src/hooks/useDerivedState.ts`:
computes `derivedState = getter(currentState)`, builds
`setDerivedState = useCallback(newValue => setState(o => updater(o, newValue)),
[currentState, setState, updater])`, and returns the pair
`[derivedState, setDerivedState]`. -/
def useDerivedState {O S R : Type _} (currentState : O)
    (setState : (O → O) → R) (getter : O → S) (updater : O → S → O) :
    S × (S → R) :=
  let derivedState := getter currentState
  let setDerivedState :=
    useCallback (fun newValue => setState (fun o => updater o newValue))
      (currentState, setState, updater)
  (derivedState, setDerivedState)

/-- JS field read `state[field]` on a plain object modelled as a map. -/
def objGet {K V : Type _} (state : K → V) (field : K) : V :=
  state field

/-- JS computed-key spread `{ ...state, [field]: newValue }`: a fresh object
agreeing with `state` on every key except `field`, which now holds
`newValue`. -/
def objSet {K V : Type _} [DecidableEq K] (state : K → V) (field : K)
    (newValue : V) : K → V :=
  fun k => if k = field then newValue else state k

/-- `useDerivedStateField` from `src/hooks/useDerivedState.ts`: delegates to
`useDerivedState` with the field read `state => state[field]` as getter and the
spread `{ ...state, [field]: newValue }` as updater. -/
def useDerivedStateField {K V R : Type _} [DecidableEq K] (currentState : K → V)
    (setState : ((K → V) → (K → V)) → R) (field : K) :
    V × (V → R) :=
  useDerivedState currentState setState (fun state => objGet state field)
    (fun state newValue => objSet state field newValue)

/-- An instrumented parent setter: it records the transform it is passed, so
that the list it returns is the trace of parent-setter invocations caused by
one call of the derived setter. -/
def traceSetState (O : Type _) : (O → O) → List (O → O) :=
  fun f => [f]

/-- The parent state obtained by letting the host apply a recorded list of
transforms, oldest first, to the parent state `p` it holds at that moment. -/
def applyCalls {O : Type _} (calls : List (O → O)) (p : O) : O :=
  calls.foldl (fun s t => t s) p

/-- The getter the spec says `useDerivedStateField` supplies:
`state => state[field]`. -/
def specFieldGetter {K V : Type _} (field : K) : (K → V) → V :=
  fun state => state field

/-- The updater the spec says `useDerivedStateField` supplies:
`(state, newValue) => { ...state, [field]: newValue }`, a shallow copy of
`state` with `field` replaced. -/
def specFieldUpdater {K V : Type _} [DecidableEq K] (field : K) :
    (K → V) → V → (K → V) :=
  fun state newValue k => if k = field then newValue else state k

/-- A nullable parent state for the dereference-error analysis: `none` stands
for JS `null`/`undefined`; a present object maps each key to `some` value or to
`none` for an absent (undefined) field. -/
def NullableObj (K V : Type _) : Type _ :=
  Option (K → Option V)

/-- `state[field]` on a possibly-null state: throws a `TypeError` when the
state is `null`/`undefined`, otherwise reads the field (an absent field reads
as undefined, i.e. `none`). -/
def objGetN {K V : Type _} (state : NullableObj K V) (field : K) :
    Except String (Option V) :=
  match state with
  | none => Except.error "TypeError: cannot read properties of null or undefined"
  | some s => Except.ok (s field)

/-- `{ ...state, [field]: newValue }` on a possibly-null state: spreading
`null`/`undefined` contributes no fields, so the result holds `newValue` at
`field` and whatever `state` held elsewhere (nothing, when `state` is null). -/
def objSetN {K V : Type _} [DecidableEq K] (state : NullableObj K V) (field : K)
    (newValue : Option V) : K → Option V :=
  fun k =>
    if k = field then newValue
    else
      match state with
      | none => none
      | some s => s k

/-- `useDerivedState` with its fallible steps lifted to `Except String`: the
source first evaluates `getter(currentState)` (line 18), so an exception
thrown there propagates to the caller before the pair is built; the transform
handed to `setState` calls the (fallible) updater, so an updater exception
propagates out of the transform unchanged when the host applies it. -/
def useDerivedStateE {O S R : Type _} (currentState : O)
    (setState : (O → Except String O) → R) (getter : O → Except String S)
    (updater : O → S → Except String O) : Except String (S × (S → R)) :=
  match getter currentState with
  | Except.error e => Except.error e
  | Except.ok derivedState =>
      Except.ok (derivedState,
        useCallback (fun newValue => setState (fun o => updater o newValue))
          (currentState, setState, updater))

/-- An instrumented parent setter for the `Except`-lifted embedding. -/
def traceSetStateE (O : Type _) :
    (O → Except String O) → List (O → Except String O) :=
  fun f => [f]

/-- `useDerivedStateField` on a nullable parent state, lifted to
`Except String`: the getter is the fallible field read `objGetN`, the updater
the always-succeeding spread `objSetN` (spreading null is legal in JS). -/
def useDerivedStateFieldE {K V R : Type _} [DecidableEq K]
    (currentState : NullableObj K V)
    (setState : (NullableObj K V → Except String (NullableObj K V)) → R)
    (field : K) : Except String (Option V × (Option V → R)) :=
  useDerivedStateE currentState setState
    (fun state => objGetN state field)
    (fun state newValue => Except.ok (some (objSetN state field newValue)))

/-- C1 (counterexample): the claim as stated fails.  With `updater o v = o + v`
projected from `currentState = 0`, invoking the derived setter with `v = 5`
hands the host the transform `o => o + 5`; if the parent state is `1` when the
host applies it, the replacement is `6`, not `updater(currentState, 5) = 5`:
the replacement is not pinned to the projection-time `currentState`. -/
theorem useDerivedState_setter_not_bound_to_projection_state :
    ¬ (applyCalls
        ((useDerivedState (0 : Nat) (traceSetState Nat) (fun o => o)
          (fun o v => o + v)).2 5) 1
      = (fun (o v : Nat) => o + v) 0 5) := by
  decide

/-- C1 (amended): invoking the setter returned by `useDerivedState` with `v`
requests that the parent state be replaced with `updater(p, v)`, where `p` is
the parent state the host holds when it applies the requested transform; this
coincides with `updater(currentState, v)` exactly when that state still equals
the `currentState` passed at projection time. -/
theorem useDerivedState_setter_requests_updater_of_applied_state
    {O S : Type} (currentState : O) (getter : O → S) (updater : O → S → O)
    (v : S) (p : O) :
    applyCalls
        ((useDerivedState currentState (traceSetState O) getter updater).2 v) p
      = updater p v :=
  rfl

/-- C2: invoking the derived setter with `v` invokes the parent setter exactly
once (the recorded trace is a singleton), and the transform passed to it sends
every parent state `o` to `updater(o, v)`. -/
theorem useDerivedState_setter_delegation {O S : Type} (currentState : O)
    (getter : O → S) (updater : O → S → O) (v : S) :
    ∃ t, (useDerivedState currentState (traceSetState O) getter updater).2 v
          = [t]
      ∧ ∀ o, t o = updater o v :=
  ⟨fun o => updater o v, rfl, fun _ => rfl⟩

/-- C3: for the field-projection pair supplied by `useDerivedStateField`
(field read and spread-with-override), the round-trip law holds: reading field
`k` back from `{ ...o, [k]: v }` yields `v`. -/
theorem objSet_objGet_roundtrip {K V : Type} [DecidableEq K] (o : K → V)
    (k : K) (v : V) :
    objGet (objSet o k v) k = v := by
  simp [objGet, objSet]

/-- C4: the field updater of `useDerivedStateField` does not touch other
fields: for every field `f2 ≠ k`, the object `{ ...o, [k]: v }` holds at `f2`
exactly the value `o` held there. -/
theorem objSet_preserves_other_fields {K V : Type} [DecidableEq K] (o : K → V)
    (k : K) (v : V) (f2 : K) (h : f2 ≠ k) :
    objGet (objSet o k v) f2 = objGet o f2 := by
  simp [objGet, objSet, h]

/-- C4 (witness): at the concrete object `fun _ => 0` over `Nat` keys, updating
key `0` to `7` leaves the value at key `1` unchanged. -/
theorem objSet_preserves_other_fields_witness :
    objGet (objSet (fun _ : Nat => (0 : Nat)) 0 7) 1
      = objGet (fun _ : Nat => (0 : Nat)) 1 :=
  objSet_preserves_other_fields (fun _ : Nat => (0 : Nat)) 0 7 1 (by decide)

/-- C5: the first component of the pair returned by `useDerivedState` is
`getter(currentState)`, the getter applied to the `currentState` argument. -/
theorem useDerivedState_fst_is_getter {O S R : Type} (currentState : O)
    (setState : (O → O) → R) (getter : O → S) (updater : O → S → O) :
    (useDerivedState currentState setState getter updater).1
      = getter currentState :=
  rfl

/-- C6: `useDerivedStateField` returns exactly what `useDerivedState` returns
when supplied the getter `state => state[field]` and the updater
`(state, newValue) => { ...state, [field]: newValue }` described by the spec;
the specialization adds no behaviour of its own. -/
theorem useDerivedStateField_delegates {K V R : Type} [DecidableEq K]
    (currentState : K → V) (setState : ((K → V) → (K → V)) → R) (field : K) :
    useDerivedStateField currentState setState field
      = useDerivedState currentState setState (specFieldGetter field)
          (specFieldUpdater field) :=
  rfl

/-- C7: calling `useDerivedStateFieldE` with a `null`/`undefined`
`currentState` fails synchronously with a `TypeError` from the field access
performed at call time: the call returns the error, never a pair. -/
theorem useDerivedStateFieldE_null_throws {K V R : Type} [DecidableEq K]
    (setState : (NullableObj K V → Except String (NullableObj K V)) → R)
    (field : K) :
    useDerivedStateFieldE (none : NullableObj K V) setState field
      = Except.error "TypeError: cannot read properties of null or undefined" :=
  rfl

/-- C8: errors of the caller-supplied functions propagate synchronously and
unchanged.  If `getter currentState` throws `e`, the call to
`useDerivedStateE` returns exactly `Except.error e`; if the getter succeeds
with `s`, the call succeeds with derived value `s` and a setter whose single
recorded transform is exactly `o => updater o v` — so an updater error
surfaces unchanged when the host applies the transform, and the call errors
iff the getter errors. -/
theorem useDerivedStateE_propagates_errors {O S : Type} (currentState : O)
    (getter : O → Except String S) (updater : O → S → Except String O) :
    (∀ e, getter currentState = Except.error e →
        useDerivedStateE currentState (traceSetStateE O) getter updater
          = Except.error e)
    ∧ (∀ s, getter currentState = Except.ok s →
        ∃ setter,
          useDerivedStateE currentState (traceSetStateE O) getter updater
            = Except.ok (s, setter)
          ∧ ∀ v, ∃ t, setter v = [t] ∧ ∀ o, t o = updater o v) := by
  refine ⟨fun e he => ?_, fun s hs => ?_⟩
  · unfold useDerivedStateE
    rw [he]
  · unfold useDerivedStateE
    rw [hs]
    exact ⟨_, rfl, fun v => ⟨fun o => updater o v, rfl, fun _ => rfl⟩⟩

/-- C8 (witness): with a getter that throws `"boom"` on the parent state `0`,
the call to `useDerivedStateE` returns exactly `Except.error "boom"`. -/
theorem useDerivedStateE_propagates_errors_witness :
    useDerivedStateE (0 : Nat) (traceSetStateE Nat)
        (fun _ => (Except.error "boom" : Except String Nat))
        (fun o _ => Except.ok o)
      = Except.error "boom" :=
  (useDerivedStateE_propagates_errors (0 : Nat)
    (fun _ => (Except.error "boom" : Except String Nat))
    (fun o _ => Except.ok o)).1 "boom" rfl

/-- C9: the read is deterministic and stateless in the arguments: two calls of
`useDerivedState` with equal arguments (and no state besides the arguments to
vary between them) yield the same derived value. -/
theorem useDerivedState_read_deterministic {O S R : Type} (cs1 cs2 : O)
    (ss1 ss2 : (O → O) → R) (g1 g2 : O → S) (u1 u2 : O → S → O)
    (hcs : cs1 = cs2) (hss : ss1 = ss2) (hg : g1 = g2) (hu : u1 = u2) :
    (useDerivedState cs1 ss1 g1 u1).1 = (useDerivedState cs2 ss2 g2 u2).1 := by
  subst hcs hss hg hu
  rfl

/-- C9 (witness): two calls with the same concrete arguments over `Nat` yield
the same derived value. -/
theorem useDerivedState_read_deterministic_witness :
    (useDerivedState (3 : Nat) (traceSetState Nat) (fun o => o + 1)
        (fun _ v => v)).1
      = (useDerivedState (3 : Nat) (traceSetState Nat) (fun o => o + 1)
          (fun _ v => v)).1 :=
  useDerivedState_read_deterministic 3 3 (traceSetState Nat)
    (traceSetState Nat) (fun o => o + 1) (fun o => o + 1) (fun _ v => v)
    (fun _ v => v) rfl rfl rfl rfl

/-- C10: the derived setter's behaviour does not depend on the `currentState`
argument: projecting from `s1` or from `s2`, invoking the returned setter with
`v` requests transforms that agree on every parent state `o` — both send it to
`updater(o, v)` — so a stale `currentState` cannot affect the update. -/
theorem useDerivedState_setter_ignores_current_state {O S : Type} (s1 s2 : O)
    (getter : O → S) (updater : O → S → O) (v : S) (o : O) :
    applyCalls ((useDerivedState s1 (traceSetState O) getter updater).2 v) o
        = applyCalls
            ((useDerivedState s2 (traceSetState O) getter updater).2 v) o
      ∧ applyCalls ((useDerivedState s1 (traceSetState O) getter updater).2 v) o
        = updater o v :=
  ⟨rfl, rfl⟩
